import Mathlib

/-!
Verification of the mermaid-mcp-server line-rule validation engine.

The repository contains two regex-rule validators with the same facade shape:
`src/validators/mermaid-validator-flexible.js` (class FlexibleMermaidValidator,
imported by server.js) and `mermaid-validator-simple.js` (class
SimpleMermaidValidator), plus a delegate-engine validator whose error
classifier and suggestion table are embedded at the end of this file.

Text is modelled as `List Char`.  JavaScript regular expressions used by the
validators contain no backreferences, so `RegExp.test` on an anchored pattern
is language membership; the `RE` type below is a direct transcription target
for each pattern and `reMatch` decides membership via Brzozowski derivatives.
Patterns carrying the `i` flag are applied to the lower-cased line, with the
pattern literals written in lower case.
-/

abbrev Str := List Char

def lit (s : String) : Str := s.toList

def dq : Char := Char.ofNat 34

def obr : Char := Char.ofNat 123

def cbr : Char := Char.ofNat 125

/-- Whitespace test mirroring the JavaScript `\s` class (ASCII part). -/
def isSpc (c : Char) : Bool :=
  c = ' ' || c = '\t' || c = '\n' || c = '\r' || c = '\x0b' || c = '\x0c'

/-- Model of `String.prototype.trim`. -/
def trimL (s : Str) : Str :=
  ((s.dropWhile isSpc).reverse.dropWhile isSpc).reverse

/-- Model of `String.prototype.toLowerCase` on ASCII text. -/
def lowerL (s : Str) : Str := s.map Char.toLower

/-- Model of `diagramCode.split('\n')`. -/
def splitLines : Str → List Str
  | [] => [[]]
  | c :: cs =>
    if c = '\n' then [] :: splitLines cs
    else
      match splitLines cs with
      | [] => [[c]]
      | h :: t => (c :: h) :: t

/-- Model of the filter `line.trim() && !line.trim().startsWith('%%')` used by
`detectDiagramType` and `countElements` in both validators. -/
def meaningful (l : Str) : Bool :=
  !(trimL l).isEmpty && !((lit (r"%%")).isPrefixOf (trimL l))

/-- Model of `countElements` (identical in both validators). -/
def countElements (lines : List Str) : Nat :=
  (lines.filter meaningful).length

/-! Minimal regular-expression engine: language membership by derivatives. -/

inductive RE where
  | zero : RE
  | one : RE
  | cls (p : Char → Bool) : RE
  | cat (a b : RE) : RE
  | alt (a b : RE) : RE
  | star (a : RE) : RE

def RE.nullable : RE → Bool
  | .zero => false
  | .one => true
  | .cls _ => false
  | .cat a b => a.nullable && b.nullable
  | .alt a b => a.nullable || b.nullable
  | .star _ => true

def RE.mkCat : RE → RE → RE
  | .zero, _ => .zero
  | _, .zero => .zero
  | .one, b => b
  | a, .one => a
  | a, b => .cat a b

def RE.mkAlt : RE → RE → RE
  | .zero, b => b
  | a, .zero => a
  | a, b => .alt a b

def RE.deriv : RE → Char → RE
  | .zero, _ => .zero
  | .one, _ => .zero
  | .cls p, c => if p c then .one else .zero
  | .cat a b, c =>
    if a.nullable then .mkAlt (.mkCat (a.deriv c) b) (b.deriv c)
    else .mkCat (a.deriv c) b
  | .alt a b, c => .mkAlt (a.deriv c) (b.deriv c)
  | .star a, c => .mkCat (a.deriv c) (.star a)

def reMatch (r : RE) : Str → Bool
  | [] => r.nullable
  | c :: cs => reMatch (r.deriv c) cs

/-! Regex-building helpers used to transcribe the JavaScript patterns. -/

def chrR (c : Char) : RE := RE.cls (fun d => d == c)

def strA (s : String) : RE := s.toList.foldr (fun c r => RE.cat (chrR c) r) RE.one

def seqR (rs : List RE) : RE := rs.foldr RE.cat RE.one

def altR (rs : List RE) : RE := rs.foldr RE.alt RE.zero

def optR (r : RE) : RE := RE.alt RE.one r

def plusR (r : RE) : RE := RE.cat r (RE.star r)

/-- JavaScript `\w`. -/
def isWordC (c : Char) : Bool := c.isAlphanum || c = '_'

/-- JavaScript `.` (any character except a line terminator). -/
def isDotC (c : Char) : Bool := !(c = '\n') && !(c = '\r')

def wsR : RE := RE.cls isSpc

def wsS : RE := RE.star wsR

def wsP : RE := plusR wsR

def dotR : RE := RE.cls isDotC

def dotS : RE := RE.star dotR

def dotP : RE := plusR dotR

def wordP : RE := plusR (RE.cls isWordC)

def digP : RE := plusR (RE.cls Char.isDigit)

/-- Class complement for `[^x]`-style classes. -/
def notC (c : Char) : RE := RE.cls (fun d => !(d == c))

/-! The ten dialect identifiers handled by both validators. -/

inductive Dialect where
  | graph | sequence | classDiagram | stateDiagram | erDiagram
  | gantt | journey | pie | gitGraph | mindmap
  deriving DecidableEq

/-- The `diagramType` string each dialect produces in the facade. -/
def dialectName : Dialect → Str
  | .graph => lit (r"graph")
  | .sequence => lit (r"sequence")
  | .classDiagram => lit (r"classDiagram")
  | .stateDiagram => lit (r"stateDiagram")
  | .erDiagram => lit (r"erDiagram")
  | .gantt => lit (r"gantt")
  | .journey => lit (r"journey")
  | .pie => lit (r"pie")
  | .gitGraph => lit (r"gitGraph")
  | .mindmap => lit (r"mindmap")

/-! Type-declaration patterns.  These are textually identical in the two
validators (the simple validator writes the pie pattern with a capture group,
`(title\s+(.+?))?` versus `(title\s+.+)?`, the same language).  Each pattern is
`^kw REST$` with `kw` a keyword literal, matched case-insensitively; the match
is decomposed as a prefix test on the keyword followed by membership of the
remainder in REST, which is exact because no alternative keyword is a prefix
of another. -/

def pfxRest (kw : String) (rest : RE) (t : Str) : Bool :=
  (kw.toList).isPrefixOf t && reMatch rest (t.drop (kw.toList).length)

/-- Remainder of `/^(graph|flowchart)\s*(TB|TD|BT|RL|LR)?\s*$/i`. -/
def graphTypeRest : RE :=
  seqR [wsS, optR (altR [strA (r"tb"), strA (r"td"), strA (r"bt"), strA (r"rl"), strA (r"lr")]), wsS]

/-- Remainder of `/^stateDiagram(-v2)?\s*$/i`. -/
def stateTypeRest : RE := RE.cat (optR (strA (r"-v2"))) wsS

/-- Remainder of `/^pie\s*(title\s+.+)?\s*$/i`. -/
def pieTypeRest : RE :=
  seqR [wsS, optR (seqR [strA (r"title"), wsP, dotP]), wsS]

/-- The `type` (for graph: `types`) declaration test of each dialect, over the
raw line; the `i` flag is modelled by lower-casing inside. -/
def typeTest (d : Dialect) (s : Str) : Bool :=
  let t := lowerL s
  match d with
  | .graph => pfxRest (r"graph") graphTypeRest t || pfxRest (r"flowchart") graphTypeRest t
  | .sequence => pfxRest (r"sequencediagram") wsS t
  | .classDiagram => pfxRest (r"classdiagram") wsS t
  | .stateDiagram => pfxRest (r"statediagram") stateTypeRest t
  | .erDiagram => pfxRest (r"erdiagram") wsS t
  | .gantt => pfxRest (r"gantt") wsS t
  | .journey => pfxRest (r"journey") wsS t
  | .pie => pfxRest (r"pie") pieTypeRest t
  | .gitGraph => pfxRest (r"gitgraph") wsS t
  | .mindmap => pfxRest (r"mindmap") wsS t

/-- Keywords opening each dialect's type declaration (lower-cased). -/
def kwOf : Dialect → List Str
  | .graph => [lit (r"graph"), lit (r"flowchart")]
  | .sequence => [lit (r"sequencediagram")]
  | .classDiagram => [lit (r"classdiagram")]
  | .stateDiagram => [lit (r"statediagram")]
  | .erDiagram => [lit (r"erdiagram")]
  | .gantt => [lit (r"gantt")]
  | .journey => [lit (r"journey")]
  | .pie => [lit (r"pie")]
  | .gitGraph => [lit (r"gitgraph")]
  | .mindmap => [lit (r"mindmap")]

/-- Model of `detectDiagramType` (identical in both validators): filter out
blank and `%%` lines, return unknown (`none`) when nothing remains, otherwise
test the trimmed, lower-cased first remaining line against the ten type rules
in the fixed source order. -/
def detectDiagramType (lines : List Str) : Option Dialect :=
  match lines.filter meaningful with
  | [] => none
  | l :: _ =>
    let f := lowerL (trimL l)
    if typeTest .graph f then some .graph
    else if typeTest .sequence f then some .sequence
    else if typeTest .classDiagram f then some .classDiagram
    else if typeTest .stateDiagram f then some .stateDiagram
    else if typeTest .erDiagram f then some .erDiagram
    else if typeTest .gantt f then some .gantt
    else if typeTest .journey f then some .journey
    else if typeTest .pie f then some .pie
    else if typeTest .gitGraph f then some .gitGraph
    else if typeTest .mindmap f then some .mindmap
    else none

/-- The fixed priority order named by the specification. -/
def detectOrder : List Dialect :=
  [.graph, .sequence, .classDiagram, .stateDiagram, .erDiagram,
   .gantt, .journey, .pie, .gitGraph, .mindmap]

/-- Modelled from the spec: the detector described in §4.1 — filter out lines
empty after trimming or starting with the comment marker, return unknown when
none remain, otherwise return the first dialect in `detectOrder` whose
type-declaration rule matches the trimmed, lower-cased first remaining line. -/
def detectDiagramTypeSpec (lines : List Str) : Option Dialect :=
  match lines.filter meaningful with
  | [] => none
  | l :: _ => (detectOrder.find? (fun d => typeTest d (lowerL (trimL l)))).map id

/-! Result records.  `VResult` is the value produced by `validateByType`;
 `Diagnostic` is the assembled value returned by `validateSyntax`. -/

structure VResult where
  isValid : Bool
  error : Option Str
  type : Option Str
  line : Option Nat
  suggestion : Option Str
  deriving DecidableEq

structure Diagnostic where
  isValid : Bool
  error : Option Str
  type : Option Str
  line : Option Nat
  suggestion : Option Str
  processingTime : Nat
  diagramType : Str
  elementCount : Nat
  deriving DecidableEq

def vOk : VResult := ⟨true, none, none, none, none⟩

def sqc : Char := Char.ofNat 39

def bsl : Char := Char.ofNat 92

/-! FlexibleMermaidValidator: the `validLine` patterns of
`src/validators/mermaid-validator-flexible.js`. -/

/-- Character class of the flexible flowchart `validLine`:
`[A-Za-z0-9_\s\[\]\(\)\{\}<>"':|+\-\*\/\\\.,\->]`. -/
def fvGraphCls (c : Char) : Bool :=
  c.isAlphanum || c = '_' || isSpc c ||
  c = '[' || c = ']' || c = '(' || c = ')' || c = obr || c = cbr ||
  c = '<' || c = '>' || c = dq || c = sqc || c = ':' || c = '|' ||
  c = '+' || c = '-' || c = '*' || c = '/' || c = bsl || c = '.' || c = ','

/-- Flexible graph `validLine`: `/^\s*[...]+\s*$/` (no `i` flag). -/
def fvGraphValid : RE := seqR [wsS, plusR (RE.cls fvGraphCls), wsS]

/-- Word-boundary `\b` followed by `.*$`: either the line ends, or the next
character is a non-word `.`-matchable character followed by anything. -/
def wbThenDots : RE := optR (RE.cat (RE.cls (fun c => !(isWordC c) && isDotC c)) dotS)

/-- Arrow alternation of the flexible sequence `validLine`, escapes resolved. -/
def fvSeqArrows : RE :=
  altR [strA (r"->>"), strA (r"-->>"), strA (r"-->"), strA (r"--->"),
        strA (r"->"), strA (r"-->"), strA (r"x"), strA (r"--x"), strA (r"--x")]

/-- Flexible sequence `validLine` (`i` flag). -/
def fvSeqValid : RE :=
  RE.alt
    (seqR [wsS, altR [strA (r"participant"), strA (r"loop"), strA (r"alt"),
                      strA (r"else"), strA (r"end"), strA (r"note"), strA (r"actor")], wbThenDots])
    (seqR [wsS, wordP, wsS, fvSeqArrows, wsS, wordP, dotS])

/-- Flexible class-diagram `validLine` (`i` flag). -/
def fvClassValid : RE :=
  altR
    [seqR [wsS, altR [strA (r"class"), strA (r"interface"), strA (r"enum")], wbThenDots],
     seqR [wsS, wordP, wsS,
           altR [strA (r"--"), strA (r"..."), strA (r"<|--"), strA (r"*--"),
                 strA (r"o--"), strA (r"|...")], wsS, wordP, dotS],
     seqR [wsS, optR (RE.cls (fun c => c = '+' || c = '-' || c = '#' || c = '~')), wsS,
           wordP, optR (strA (r"()")), wsS, RE.cls (fun c => c = ':' || c = obr), dotS]]

/-- Flexible state-diagram `validLine` (`i` flag). -/
def fvStateValid : RE :=
  altR
    [seqR [wsS, RE.star (chrR '['), RE.star (chrR ']'), wsS, strA (r"-->"), wsS, wordP, dotS],
     seqR [wsS, wordP, wsS, strA (r"-->"), wsS, RE.star (chrR '['), RE.star (chrR ']'), dotS],
     seqR [wsS, strA (r"[*]"), wsS, strA (r"-->"), wsS, wordP, dotS],
     seqR [wsS, wordP, wsS, strA (r"-->"), wsS, strA (r"[*]"), dotS]]

/-- ER relationship tokens `\|\||\{o|o\||}o|o{|\|\}|}\||\{\{`. -/
def erRelTok : RE :=
  altR [strA (r"||"), RE.cat (chrR obr) (chrR 'o'), RE.cat (chrR 'o') (chrR '|'),
        RE.cat (chrR cbr) (chrR 'o'), RE.cat (chrR 'o') (chrR obr),
        RE.cat (chrR '|') (chrR cbr), RE.cat (chrR cbr) (chrR '|'),
        RE.cat (chrR obr) (chrR obr)]

/-- Flexible ER-diagram `validLine` (`i` flag). -/
def fvErValid : RE :=
  altR
    [seqR [wsS, wordP, wsS, chrR obr, dotS],
     seqR [wsS, wordP, wsS, chrR ':', wsS, wordP, dotS],
     seqR [wsS, wordP, wsS, erRelTok, wsS, wordP, dotS],
     seqR [wsS, chrR cbr, wsS]]

/-- Flexible Gantt `validLine` (`i` flag). -/
def fvGanttValid : RE :=
  RE.alt
    (seqR [wsS, altR [strA (r"title"), strA (r"dateformat"), strA (r"section")], wbThenDots])
    (seqR [wsS, wordP, wsS, chrR ':', wsS, dotS])

/-- Flexible journey `validLine` (`i` flag). -/
def fvJourneyValid : RE :=
  RE.alt
    (seqR [wsS, altR [strA (r"title"), strA (r"section")], wbThenDots])
    (seqR [wsS, plusR (notC ':'), chrR ':', wsS, digP, wsS, chrR ':', wsS, wordP, dotS])

/-- Flexible pie `validLine` (`i` flag): `/^\s*"[^"]+"\s*:\s*\d+\s*$/i`. -/
def fvPieValid : RE :=
  seqR [wsS, chrR dq, plusR (notC dq), chrR dq, wsS, chrR ':', wsS, digP, wsS]

/-- Flexible gitGraph `validLine` (`i` flag). -/
def fvGitValid : RE :=
  seqR [wsS, altR [strA (r"commit"), strA (r"branch"), strA (r"checkout"),
                   strA (r"merge"), strA (r"cherry-pick")], wbThenDots]

/-- Flexible mindmap `validLine` (`i` flag): `/^\s*[\s]*[\+\-\*].*$/i`. -/
def fvMindValid : RE :=
  seqR [wsS, wsS, RE.cls (fun c => c = '+' || c = '-' || c = '*'), dotS]

/-- The `validLine` test of the flexible validator; patterns with the `i`
flag are applied to the lower-cased line. -/
def fvValidLine (d : Dialect) (line : Str) : Bool :=
  match d with
  | .graph => reMatch fvGraphValid line
  | .sequence => reMatch fvSeqValid (lowerL line)
  | .classDiagram => reMatch fvClassValid (lowerL line)
  | .stateDiagram => reMatch fvStateValid (lowerL line)
  | .erDiagram => reMatch fvErValid (lowerL line)
  | .gantt => reMatch fvGanttValid (lowerL line)
  | .journey => reMatch fvJourneyValid (lowerL line)
  | .pie => reMatch fvPieValid (lowerL line)
  | .gitGraph => reMatch fvGitValid (lowerL line)
  | .mindmap => reMatch fvMindValid (lowerL line)

/-- Flexible flowchart `subgraph` marker `/^subgraph/` (case-sensitive, not
anchored at the end). -/
def fvSubgraphTest (line : Str) : Bool := (lit (r"subgraph")).isPrefixOf line

/-- Flexible flowchart `end` marker `/^end\s*$/` (case-sensitive). -/
def fvEndTest (line : Str) : Bool := reMatch (RE.cat (strA (r"end")) wsS) line

/-- Model of `this.patterns[diagramType].type` in the flexible
`validateByType`: the flowchart table stores its declaration matcher under
the key `types`, not `type`, so the lookup yields `undefined` for graph. -/
def fvTypePat : Dialect → Option (Str → Bool)
  | .graph => none
  | d => some (typeTest d)

def fvSyntaxErr (d : Dialect) (line : Str) (n : Nat) : VResult :=
  ⟨false,
   some (lit (r"Invalid ") ++ dialectName d ++ lit (r" syntax: ") ++ [dq] ++ line ++ [dq]),
   some (lit (r"syntax")), some n,
   some (lit (r"Check ") ++ dialectName d ++ lit (r" diagram syntax"))⟩

def fvNoType (d : Dialect) : VResult :=
  ⟨false, some (lit (r"Missing ") ++ dialectName d ++ lit (r" declaration")),
   some (lit (r"no_type")), some 1,
   some (lit (r"Add ") ++ [dq] ++ dialectName d ++ [dq] ++ lit (r" at the beginning"))⟩

/-- Model of the loop of the flexible `validateByType`, with the running
1-based index carried as `i + 1`. -/
def fvScan (d : Dialect) : List Str → Nat → Bool → VResult
  | [], _, hasType => if hasType then vOk else fvNoType d
  | l :: rest, i, hasType =>
    let line := trimL l
    if line.isEmpty then fvScan d rest (i + 1) hasType
    else if (lit (r"%%")).isPrefixOf line then fvScan d rest (i + 1) hasType
    else if (match fvTypePat d with | some p => p line | none => false) then
      fvScan d rest (i + 1) true
    else if fvValidLine d line || (d == .graph && (fvSubgraphTest line || fvEndTest line)) then
      fvScan d rest (i + 1) hasType
    else fvSyntaxErr d line (i + 1)

def inputErrorDiag : Diagnostic :=
  ⟨false, some (lit (r"Diagram code must be a non-empty string")),
   some (lit (r"input_error")), none, none, 0, lit (r"unknown"), 0⟩

def noTypeDiag (t : Nat) : Diagnostic :=
  ⟨false, some (lit (r"No valid diagram type detected")), some (lit (r"no_type")), some 1,
   some (lit (r"Add a diagram type at the beginning (e.g., graph TD, sequenceDiagram, classDiagram)")),
   t, lit (r"unknown"), 0⟩

/-- Model of `FlexibleMermaidValidator.validateSyntax`.  `none` stands for a
non-string argument; `t` is the elapsed-time reading used on the paths that
measure `Date.now() - startTime`. -/
def fvValidateSyntax (input : Option Str) (t : Nat) : Diagnostic :=
  match input with
  | none => inputErrorDiag
  | some s =>
    if s.isEmpty then inputErrorDiag
    else
      let lines := splitLines s
      match detectDiagramType lines with
      | none => noTypeDiag t
      | some d =>
        let r := fvScan d lines 0 false
        ⟨r.isValid, r.error, r.type, r.line, r.suggestion, t, dialectName d, countElements lines⟩

/-- Join lines with a newline character (inverse of `splitLines` on
newline-free lines); used to build concrete inputs. -/
def joinNL (ls : List Str) : Str := (ls.intersperse ['\n']).flatten

/-! SimpleMermaidValidator: patterns of `mermaid-validator-simple.js`. -/

/-- Simple graph `node`: `/^[A-Za-z0-9_]+(\[[^\]]*\]|\([^\)]*\)|\{[^}]*\}|[^:]*?:[^:]*|<[^>]*>|\*[^*]*\*)?\s*$/`. -/
def svGraphNode : RE :=
  RE.cat wordP (RE.cat
    (optR (altR
      [seqR [chrR '[', RE.star (notC ']'), chrR ']'],
       seqR [chrR '(', RE.star (notC ')'), chrR ')'],
       seqR [chrR obr, RE.star (notC cbr), chrR cbr],
       seqR [RE.star (notC ':'), chrR ':', RE.star (notC ':')],
       seqR [chrR '<', RE.star (notC '>'), chrR '>'],
       seqR [chrR '*', RE.star (notC '*'), chrR '*']]))
    wsS)

/-- Arrow tokens of the simple graph `connection`. -/
def svGraphArrows : RE :=
  altR [strA (r"-->"), strA (r"---"), strA (r"...>"), strA (r"==>"),
        strA (r"---|>"), strA (r"...|>"), strA (r"...")]

/-- Simple graph `connection`. -/
def svGraphConn : RE :=
  seqR [wsS, wordP, wsS, svGraphArrows, wsS, wordP, wsS,
        optR (altR
          [seqR [chrR '[', RE.star (notC ']'), chrR ']'],
           seqR [chrR '(', RE.star (notC ')'), chrR ')'],
           seqR [chrR obr, RE.star (notC cbr), chrR cbr]]),
        optR (seqR [wsS, chrR '|', wsS, dotP, wsS, chrR '|']), wsS]

/-- Simple graph `subgraph`: `/^subgraph\s+(.+)\s*$/i`. -/
def svGraphSubgraph : RE := seqR [strA (r"subgraph"), wsP, dotP, wsS]

/-- Pattern `/^end\s*$/i`, used by the simple graph and sequence tables. -/
def svEndRE : RE := RE.cat (strA (r"end")) wsS

/-- Simple sequence `participant`: `/^participant\s+(.+?)\s+as\s+(.+?)\s*$/i`. -/
def svSeqParticipant : RE :=
  seqR [strA (r"participant"), wsP, dotP, wsP, strA (r"as"), wsP, dotP, wsS]

/-- Simple sequence `message` (case-sensitive). -/
def svSeqMessage : RE :=
  seqR [wsS, dotP, wsS,
        altR [strA (r"->>"), strA (r"-->>"), strA (r"-->"), strA (r"--->"),
              strA (r"->"), strA (r"-->"), strA (r"x"), strA (r"--x"), strA (r"--x")],
        wsS, dotP, chrR ':', wsS, dotP, wsS]

/-- Simple sequence `note`: `/^note\s+(right|left|over)\s+(.+?):\s*(.*?)\s*$/i`. -/
def svSeqNote : RE :=
  seqR [strA (r"note"), wsP, altR [strA (r"right"), strA (r"left"), strA (r"over")],
        wsP, dotP, chrR ':', wsS, dotS, wsS]

/-- Simple sequence `loop`: `/^loop\s+(.*?)\s*$/i`. -/
def svSeqLoop : RE := seqR [strA (r"loop"), wsP, dotS, wsS]

/-- Simple sequence `alt`: `/^alt\s+(.*?)\s*$/i`. -/
def svSeqAlt : RE := seqR [strA (r"alt"), wsP, dotS, wsS]

/-- Simple sequence `else`: `/^else\s+(.*?)\s*$/i`. -/
def svSeqElse : RE := seqR [strA (r"else"), wsP, dotS, wsS]

/-- Simple class `classDef`: `/^class\s+(\w+)(\s+<\|\-.*|\s*\{[^}]*\})?\s*$/i`. -/
def svClassDef : RE :=
  seqR [strA (r"class"), wsP, wordP,
        optR (RE.alt (seqR [wsP, strA (r"<|-"), dotS])
                     (seqR [wsS, chrR obr, RE.star (notC cbr), chrR cbr])),
        wsS]

/-- Simple class `relation`: `/^\s*(\w+)\s*(--|\.\.\.|<\|--|\*--|o--|\|\.\.\.)\s*(\w+)\s*$/i`. -/
def svClassRelation : RE :=
  seqR [wsS, wordP, wsS,
        altR [strA (r"--"), strA (r"..."), strA (r"<|--"), strA (r"*--"),
              strA (r"o--"), strA (r"|...")],
        wsS, wordP, wsS]

/-- Simple class `method` (case-sensitive): `/^\s*[+\-#~]?\s*\w+\([^)]*\)(\s*:\s*\w+)?\s*$/`. -/
def svClassMethod : RE :=
  seqR [wsS, optR (RE.cls (fun c => c = '+' || c = '-' || c = '#' || c = '~')), wsS,
        wordP, chrR '(', RE.star (notC ')'), chrR ')',
        optR (seqR [wsS, chrR ':', wsS, wordP]), wsS]

/-- Simple class `property` (case-sensitive): `/^\s*[+\-#~]?\s*\w+(\s*:\s*\w+)?\s*$/`. -/
def svClassProperty : RE :=
  seqR [wsS, optR (RE.cls (fun c => c = '+' || c = '-' || c = '#' || c = '~')), wsS,
        wordP, optR (seqR [wsS, chrR ':', wsS, wordP]), wsS]

/-- Simple state `state`: `/^\s*\[?\*?\]?\s*-->\s*\w+(\s*:\s*.+?)?\s*$/i`. -/
def svStateState : RE :=
  seqR [wsS, optR (chrR '['), optR (chrR '*'), optR (chrR ']'), wsS, strA (r"-->"),
        wsS, wordP, optR (seqR [wsS, chrR ':', wsS, dotP]), wsS]

/-- Simple state `transition`: `/^\s*(\w+|\[*\]?)\s*-->\s*(\w+|\[*\]?)(\s*:\s*.+?)?\s*$/i`. -/
def svStateTransition : RE :=
  seqR [wsS, RE.alt wordP (RE.cat (RE.star (chrR '[')) (optR (chrR ']'))), wsS,
        strA (r"-->"), wsS, RE.alt wordP (RE.cat (RE.star (chrR '[')) (optR (chrR ']'))),
        optR (seqR [wsS, chrR ':', wsS, dotP]), wsS]

/-- Simple state `initial`: `/^\s*\[\*\]\s*-->\s*\w+\s*$/i`. -/
def svStateInitial : RE := seqR [wsS, strA (r"[*]"), wsS, strA (r"-->"), wsS, wordP, wsS]

/-- Simple state `final`: `/^\s*\w+\s*-->\s*\[\*\]\s*$/i`. -/
def svStateFinal : RE := seqR [wsS, wordP, wsS, strA (r"-->"), wsS, strA (r"[*]"), wsS]

/-- Simple ER `entity` (case-sensitive): `/^(\w+)\s*\{\s*$/`. -/
def svErEntity : RE := seqR [wordP, wsS, chrR obr, wsS]

/-- Simple ER `attribute` (case-sensitive): `/^\s*(\w+)\s+(\w+)(\s+(PK|FK))?\s*$/`. -/
def svErAttribute : RE :=
  seqR [wsS, wordP, wsP, wordP, optR (seqR [wsP, RE.alt (strA (r"PK")) (strA (r"FK"))]), wsS]

/-- Simple ER `relationship` (case-sensitive). -/
def svErRelationship : RE :=
  seqR [wsS, wordP, wsS, erRelTok, wsS, wordP, wsS, chrR ':', wsS, dotP, wsS]

/-- Simple ER `endEntity` (case-sensitive): `/^\s*\}\s*$/`. -/
def svErEnd : RE := seqR [wsS, chrR cbr, wsS]

/-- Simple ER `simpleRelationship` (case-sensitive). -/
def svErSimpleRel : RE := seqR [wsS, wordP, wsS, erRelTok, wsS, wordP, wsS]

/-- Simple Gantt `title`: `/^title\s+(.+?)\s*$/i`; also journey `title`. -/
def svTitle : RE := seqR [strA (r"title"), wsP, dotP, wsS]

/-- Simple Gantt `dateFormat`: `/^dateFormat\s+(.+?)\s*$/i`. -/
def svDateFormat : RE := seqR [strA (r"dateformat"), wsP, dotP, wsS]

/-- Simple Gantt `section`: `/^section\s+(.+?)\s*$/i`; also journey `section`. -/
def svSection : RE := seqR [strA (r"section"), wsP, dotP, wsS]

/-- Simple Gantt `task` (case-sensitive): `/^\s*(\w+)\s*:\s*(.+?),\s*(.+?)(\s*,\s*(.+?))?\s*$/`. -/
def svGanttTask : RE :=
  seqR [wsS, wordP, wsS, chrR ':', wsS, dotP, chrR ',', wsS, dotP,
        optR (seqR [wsS, chrR ',', wsS, dotP]), wsS]

/-- Simple Gantt `milestone` (case-sensitive): `/^\s*(\w+)\s*:\s*milestone,\s*(.+?)\s*$/`. -/
def svGanttMilestone : RE :=
  seqR [wsS, wordP, wsS, chrR ':', wsS, strA (r"milestone,"), wsS, dotP, wsS]

/-- Simple journey `task` (case-sensitive): `/^\s*(.+?)\s*:\s*(\d+)\s*:\s*(.+?)\s*$/`. -/
def svJourneyTask : RE :=
  seqR [wsS, dotP, wsS, chrR ':', wsS, digP, wsS, chrR ':', wsS, dotP, wsS]

/-- Simple pie `data` (case-sensitive): `/^\s*"(.*?)"\s*:\s*(\d+)\s*$/`. -/
def svPieData : RE :=
  seqR [wsS, chrR dq, dotS, chrR dq, wsS, chrR ':', wsS, digP, wsS]

/-- Simple gitGraph `commit`: `/^\s*commit\s*(?:type:\s*(\w+))?\s*$/i`. -/
def svGitCommit : RE :=
  seqR [wsS, strA (r"commit"), wsS, optR (seqR [strA (r"type:"), wsS, wordP]), wsS]

/-- Simple gitGraph `branch`: `/^\s*branch\s+(.+?)\s*$/i`. -/
def svGitBranch : RE := seqR [wsS, strA (r"branch"), wsP, dotP, wsS]

/-- Simple gitGraph `checkout`: `/^\s*checkout\s+(.+?)\s*$/i`. -/
def svGitCheckout : RE := seqR [wsS, strA (r"checkout"), wsP, dotP, wsS]

/-- Simple gitGraph `merge`: `/^\s*merge\s+(.+?)\s*$/i`. -/
def svGitMerge : RE := seqR [wsS, strA (r"merge"), wsP, dotP, wsS]

/-- Simple gitGraph `cherryPick`: `/^\s*cherry-pick\s+(.+?)\s*$/i`. -/
def svGitCherryPick : RE := seqR [wsS, strA (r"cherry-pick"), wsP, dotP, wsS]

/-- Simple mindmap `node` (case-sensitive). -/
def svMindNode : RE :=
  seqR [wsS, wsS, RE.cls (fun c => c = '+' || c = '-' || c = '*'), dotP,
        optR (seqR [strA (r"(("), dotS, strA (r"))")]),
        optR (seqR [chrR '[', dotS, chrR ']']),
        optR (seqR [chrR obr, dotS, chrR cbr]), wsS]

/-- Shared loop shape of the ten simple per-dialect validators: skip blank and
comment lines, recognise the type declaration, accept any line matching one of
the dialect's line-shape patterns, otherwise stop with a syntax diagnostic at
the current 1-based index; after the loop, report `no_type` when no
declaration was seen. -/
def svScan (typeP : Str → Bool) (linePs : List (Str → Bool)) (mkErr : Str → Str)
    (sugg ntErr ntSugg : Str) : List Str → Nat → Bool → VResult
  | [], _, hasType =>
    if hasType then vOk
    else ⟨false, some ntErr, some (lit (r"no_type")), some 1, some ntSugg⟩
  | l :: rest, i, hasType =>
    let line := trimL l
    if line.isEmpty || (lit (r"%%")).isPrefixOf line then
      svScan typeP linePs mkErr sugg ntErr ntSugg rest (i + 1) hasType
    else if typeP line then svScan typeP linePs mkErr sugg ntErr ntSugg rest (i + 1) true
    else if linePs.any (fun p => p line) then
      svScan typeP linePs mkErr sugg ntErr ntSugg rest (i + 1) hasType
    else ⟨false, some (mkErr line), some (lit (r"syntax")), some (i + 1), some sugg⟩

def quoteIn (pre : Str) (line : Str) : Str := pre ++ [dq] ++ line ++ [dq]

/-- Model of `validateGraph` in the simple validator. -/
def svValidateGraph (lines : List Str) : VResult :=
  svScan (typeTest .graph)
    [fun l => reMatch svGraphSubgraph (lowerL l),
     fun l => reMatch svEndRE (lowerL l),
     fun l => reMatch svGraphNode l,
     fun l => reMatch svGraphConn l]
    (fun l => quoteIn (lit (r"Invalid graph syntax: ")) l)
    (lit (r"Check graph syntax. Valid formats: A[Text], A --> B, subgraph Title"))
    (lit (r"Missing graph type declaration"))
    (lit (r#"Add "graph TB" or "graph TD" at the beginning"#))
    lines 0 false

/-- Model of `validateSequence` in the simple validator. -/
def svValidateSequence (lines : List Str) : VResult :=
  svScan (typeTest .sequence)
    [fun l => reMatch svSeqParticipant (lowerL l),
     fun l => reMatch svSeqMessage l,
     fun l => reMatch svSeqNote (lowerL l),
     fun l => reMatch svSeqLoop (lowerL l),
     fun l => reMatch svSeqAlt (lowerL l),
     fun l => reMatch svSeqElse (lowerL l),
     fun l => reMatch svEndRE (lowerL l)]
    (fun l => quoteIn (lit (r"Invalid sequence diagram syntax: ")) l)
    (lit (r"Check sequence diagram syntax. Valid formats: A->>B: Message, participant A as Alice"))
    (lit (r"Missing sequence diagram declaration"))
    (lit (r#"Add "sequenceDiagram" at the beginning"#))
    lines 0 false

/-- Model of `validateClassDiagram` in the simple validator. -/
def svValidateClassDiagram (lines : List Str) : VResult :=
  svScan (typeTest .classDiagram)
    [fun l => reMatch svClassDef (lowerL l),
     fun l => reMatch svClassRelation (lowerL l),
     fun l => reMatch svClassMethod l,
     fun l => reMatch svClassProperty l]
    (fun l => quoteIn (lit (r"Invalid class diagram syntax: ")) l)
    (lit (r"Check class diagram syntax. Valid formats: class ClassName, A --> B"))
    (lit (r"Missing class diagram declaration"))
    (lit (r#"Add "classDiagram" at the beginning"#))
    lines 0 false

/-- Model of `validateStateDiagram` in the simple validator. -/
def svValidateStateDiagram (lines : List Str) : VResult :=
  svScan (typeTest .stateDiagram)
    [fun l => reMatch svStateState (lowerL l),
     fun l => reMatch svStateTransition (lowerL l),
     fun l => reMatch svStateInitial (lowerL l),
     fun l => reMatch svStateFinal (lowerL l)]
    (fun l => quoteIn (lit (r"Invalid state diagram syntax: ")) l)
    (lit (r"Check state diagram syntax. Valid formats: [*] --> State, State1 --> State2"))
    (lit (r"Missing state diagram declaration"))
    (lit (r#"Add "stateDiagram" or "stateDiagram-v2" at the beginning"#))
    lines 0 false

/-- Model of `validateERDiagram` in the simple validator. -/
def svValidateERDiagram (lines : List Str) : VResult :=
  svScan (typeTest .erDiagram)
    [fun l => reMatch svErEntity l,
     fun l => reMatch svErAttribute l,
     fun l => reMatch svErRelationship l,
     fun l => reMatch svErSimpleRel l,
     fun l => reMatch svErEnd l]
    (fun l => quoteIn (lit (r"Invalid ER diagram syntax: ")) l)
    (lit (r"Check ER diagram syntax. Valid formats: ENTITY ") ++ [obr, ' ', cbr] ++
     lit (r", ENTITY ||--o") ++ [obr] ++ lit (r" ENTITY : relationship"))
    (lit (r"Missing ER diagram declaration"))
    (lit (r#"Add "erDiagram" at the beginning"#))
    lines 0 false

/-- Model of `validateGantt` in the simple validator. -/
def svValidateGantt (lines : List Str) : VResult :=
  svScan (typeTest .gantt)
    [fun l => reMatch svTitle (lowerL l),
     fun l => reMatch svDateFormat (lowerL l),
     fun l => reMatch svSection (lowerL l),
     fun l => reMatch svGanttTask l,
     fun l => reMatch svGanttMilestone l]
    (fun l => quoteIn (lit (r"Invalid Gantt chart syntax: ")) l)
    (lit (r"Check Gantt chart syntax. Valid formats: title Text, section Name, task : id, date, duration"))
    (lit (r"Missing Gantt chart declaration"))
    (lit (r#"Add "gantt" at the beginning"#))
    lines 0 false

/-- Model of `validateJourney` in the simple validator. -/
def svValidateJourney (lines : List Str) : VResult :=
  svScan (typeTest .journey)
    [fun l => reMatch svTitle (lowerL l),
     fun l => reMatch svSection (lowerL l),
     fun l => reMatch svJourneyTask l]
    (fun l => quoteIn (lit (r"Invalid journey diagram syntax: ")) l)
    (lit (r"Check journey diagram syntax. Valid formats: title Text, section Name, Task: score: User"))
    (lit (r"Missing journey diagram declaration"))
    (lit (r#"Add "journey" at the beginning"#))
    lines 0 false

/-- Model of `validatePie` in the simple validator, with its extra `hasData`
state and `no_data` terminal check. -/
def svValidatePieGo : List Str → Nat → Bool → Bool → VResult
  | [], _, hasType, hasData =>
    if !hasType then
      ⟨false, some (lit (r"Missing pie chart declaration")), some (lit (r"no_type")), some 1,
       some (lit (r#"Add "pie" or "pie title Text" at the beginning"#))⟩
    else if !hasData then
      ⟨false, some (lit (r"No data found in pie chart")), some (lit (r"no_data")), some 2,
       some (lit (r#"Add data in format: "Label" : value"#))⟩
    else vOk
  | l :: rest, i, hasType, hasData =>
    let line := trimL l
    if line.isEmpty || (lit (r"%%")).isPrefixOf line then svValidatePieGo rest (i + 1) hasType hasData
    else if typeTest .pie line then svValidatePieGo rest (i + 1) true hasData
    else if reMatch svPieData line then svValidatePieGo rest (i + 1) hasType true
    else
      ⟨false, some (quoteIn (lit (r"Invalid pie chart syntax: ")) line),
       some (lit (r"syntax")), some (i + 1),
       some (lit (r#"Check pie chart syntax. Valid formats: "Label" : value"#))⟩

def svValidatePie (lines : List Str) : VResult := svValidatePieGo lines 0 false false

/-- Model of `validateGitGraph` in the simple validator. -/
def svValidateGitGraph (lines : List Str) : VResult :=
  svScan (typeTest .gitGraph)
    [fun l => reMatch svGitCommit (lowerL l),
     fun l => reMatch svGitBranch (lowerL l),
     fun l => reMatch svGitCheckout (lowerL l),
     fun l => reMatch svGitMerge (lowerL l),
     fun l => reMatch svGitCherryPick (lowerL l)]
    (fun l => quoteIn (lit (r"Invalid Git graph syntax: ")) l)
    (lit (r"Check Git graph syntax. Valid formats: commit, branch name, checkout name, merge name"))
    (lit (r"Missing Git graph declaration"))
    (lit (r#"Add "gitGraph" at the beginning"#))
    lines 0 false

/-- Model of `validateMindmap` in the simple validator. -/
def svValidateMindmap (lines : List Str) : VResult :=
  svScan (typeTest .mindmap)
    [fun l => reMatch svMindNode l]
    (fun l => quoteIn (lit (r"Invalid mind map syntax: ")) l)
    (lit (r"Check mind map syntax. Use indentation and +, -, or * for hierarchy"))
    (lit (r"Missing mind map declaration"))
    (lit (r#"Add "mindmap" at the beginning"#))
    lines 0 false

/-- Model of `validateByType` in the simple validator. -/
def svValidateByType (d : Dialect) (lines : List Str) : VResult :=
  match d with
  | .graph => svValidateGraph lines
  | .sequence => svValidateSequence lines
  | .classDiagram => svValidateClassDiagram lines
  | .stateDiagram => svValidateStateDiagram lines
  | .erDiagram => svValidateERDiagram lines
  | .gantt => svValidateGantt lines
  | .journey => svValidateJourney lines
  | .pie => svValidatePie lines
  | .gitGraph => svValidateGitGraph lines
  | .mindmap => svValidateMindmap lines

/-- Model of `SimpleMermaidValidator.validateSyntax`. -/
def svValidateSyntax (input : Option Str) (t : Nat) : Diagnostic :=
  match input with
  | none => inputErrorDiag
  | some s =>
    if s.isEmpty then inputErrorDiag
    else
      let lines := splitLines s
      match detectDiagramType lines with
      | none => noTypeDiag t
      | some d =>
        let r := svValidateByType d lines
        ⟨r.isValid, r.error, r.type, r.line, r.suggestion, t, dialectName d, countElements lines⟩

/-! Error classifier and suggestion map of the delegate-engine validator
(`MermaidValidator._classifyError` / `_getSuggestion`).  The argument models
`error.message`, with `none` for an absent message (the source falls back to
the empty string). -/

/-- Substring containment, modelling `String.prototype.includes`. -/
def containsL (pat : Str) : Str → Bool
  | [] => pat.isEmpty
  | c :: cs => pat.isPrefixOf (c :: cs) || containsL pat cs

def classifyError (msg : Option Str) : Str :=
  let m := lowerL (msg.getD [])
  if containsL (lit (r"syntax error")) m then lit (r"syntax")
  else if containsL (lit (r"no diagram type")) m then lit (r"no_type")
  else if containsL (lit (r"unknown")) m then lit (r"unknown_command")
  else if containsL (lit (r"parse")) m then lit (r"parse")
  else if containsL (lit (r"identifier")) m then lit (r"identifier")
  else if containsL (lit (r"relation")) m then lit (r"relation")
  else lit (r"general")

/-- The `suggestions` table of `_getSuggestion`, keyed by error kind; the
`|| suggestions.general` fallback of the source is the final else. -/
def suggestionFor (k : Str) : Str :=
  if k = lit (r"syntax") then lit (r"Check for missing semicolons, brackets, or incorrect syntax")
  else if k = lit (r"no_type") then lit (r"Add a diagram type at the beginning (e.g., graph TD, sequenceDiagram)")
  else if k = lit (r"unknown_command") then lit (r"Verify the command is supported in your Mermaid version")
  else if k = lit (r"parse") then lit (r"Check the structure and syntax of your diagram")
  else if k = lit (r"identifier") then lit (r"Ensure all identifiers are valid and properly referenced")
  else if k = lit (r"relation") then lit (r"Check arrow syntax and node connections")
  else lit (r"Review the diagram syntax and structure")

/-- Model of `_getSuggestion`: classify, then look the kind up in the table. -/
def getSuggestion (msg : Option Str) : Str := suggestionFor (classifyError msg)

/-- Modelled from the spec: the §4.3 classifier — ordered substring
containment tests on the lower-cased raw message, first match wins. -/
def classifyErrorSpec (msg : Option Str) : Str :=
  let m := lowerL (msg.getD [])
  if containsL (lit (r"syntax error")) m then lit (r"syntax")
  else if containsL (lit (r"no diagram type")) m then lit (r"no_type")
  else if containsL (lit (r"unknown")) m then lit (r"unknown_command")
  else if containsL (lit (r"parse")) m then lit (r"parse")
  else if containsL (lit (r"identifier")) m then lit (r"identifier")
  else if containsL (lit (r"relation")) m then lit (r"relation")
  else lit (r"general")

/-! Helper lemmas shared by several claims. -/

theorem pfx2_nonempty (x : Str) (h : (lit (r"%%")).isPrefixOf x = true) :
    x.isEmpty = false := by
  cases x with
  | nil => simp [lit, List.isPrefixOf] at h
  | cons c cs => rfl

theorem meaningful_parts (l : Str) :
    meaningful l = true ↔
      ((trimL l).isEmpty = false ∧ (lit (r"%%")).isPrefixOf (trimL l) = false) := by
  simp [meaningful]

theorem not_meaningful_parts (l : Str) :
    meaningful l = false ↔
      ((trimL l).isEmpty = true ∨ (lit (r"%%")).isPrefixOf (trimL l) = true) := by
  cases h1 : (trimL l).isEmpty <;> cases h2 : (lit (r"%%")).isPrefixOf (trimL l) <;>
    simp [meaningful, h1, h2]

theorem detect_some_mem (lines : List Str) (d : Dialect)
    (h : detectDiagramType lines = some d) : ∃ l ∈ lines, meaningful l = true := by
  unfold detectDiagramType at h
  cases hf : lines.filter meaningful with
  | nil => rw [hf] at h; exact absurd h (by simp)
  | cons l t =>
    have hm : l ∈ lines.filter meaningful := by rw [hf]; exact List.mem_cons_self l t
    rw [List.mem_filter] at hm
    exact ⟨l, hm.1, hm.2⟩

/-- Concrete input of scenario 1 of the specification, in split form. -/
def c1lines : List Str :=
  [lit (r"graph TD"), lit (r"    A[Start] --> B{Decision}"),
   lit (r"    B -->|Yes| C[Process]"), lit (r"    B -->|No| D[End]"), lit (r"    C --> D")]

/-- C1: the spec (and the repository's own test suite) say this flowchart input
validates with `isValid: true, diagramType: "graph", elementCount: 5`.  The
code disagrees: the flexible validator (the one the server imports) returns
`isValid: false` with kind `no_type` and message `Missing graph declaration`,
because `validateByType` reads `this.patterns[diagramType].type` while the
graph pattern table names its declaration matcher `types`; the simple
validator also rejects the input, with kind `syntax` at line 2, since
`A[Start] --> B{Decision}` matches neither its `node` nor its `connection`
pattern.  Only `diagramType` and `elementCount` come out as claimed. -/
theorem c1_graph_example_code_bug :
    (fvValidateSyntax (some (joinNL c1lines)) 0).isValid = false ∧
    (fvValidateSyntax (some (joinNL c1lines)) 0).type = some (lit (r"no_type")) ∧
    (fvValidateSyntax (some (joinNL c1lines)) 0).error = some (lit (r"Missing graph declaration")) ∧
    (fvValidateSyntax (some (joinNL c1lines)) 0).diagramType = lit (r"graph") ∧
    (fvValidateSyntax (some (joinNL c1lines)) 0).elementCount = 5 ∧
    (svValidateSyntax (some (joinNL c1lines)) 0).isValid = false ∧
    (svValidateSyntax (some (joinNL c1lines)) 0).type = some (lit (r"syntax")) ∧
    (svValidateSyntax (some (joinNL c1lines)) 0).line = some 2 := by
  decide

/-- C4: empty or non-string input makes both validators return, without any
line scan, the fixed diagnostic with kind `input_error`, message `Diagram code
must be a non-empty string`, zero duration, dialect `unknown` and element
count 0 — whatever the elapsed-time reading `t` is. -/
theorem c4_input_error (input : Option Str) (t : Nat)
    (h : input = none ∨ input = some []) :
    fvValidateSyntax input t =
      ⟨false, some (lit (r"Diagram code must be a non-empty string")),
       some (lit (r"input_error")), none, none, 0, lit (r"unknown"), 0⟩ ∧
    svValidateSyntax input t =
      ⟨false, some (lit (r"Diagram code must be a non-empty string")),
       some (lit (r"input_error")), none, none, 0, lit (r"unknown"), 0⟩ := by
  rcases h with h | h <;> subst h <;> exact ⟨rfl, rfl⟩

theorem c4_input_error_witness :
    fvValidateSyntax none 7 =
      ⟨false, some (lit (r"Diagram code must be a non-empty string")),
       some (lit (r"input_error")), none, none, 0, lit (r"unknown"), 0⟩ ∧
    svValidateSyntax none 7 =
      ⟨false, some (lit (r"Diagram code must be a non-empty string")),
       some (lit (r"input_error")), none, none, 0, lit (r"unknown"), 0⟩ :=
  c4_input_error none 7 (Or.inl rfl)

/-- C8 counterexample: a message classified `unknown_command` gets the
suggestion `Verify the command is supported in your Mermaid version`, not the
spec's `Verify the command is supported in your diagram syntax version`. -/
theorem c8_suggestion_counterexample :
    classifyError (some (lit (r"unknown thing happened"))) = lit (r"unknown_command") ∧
    getSuggestion (some (lit (r"unknown thing happened"))) ≠
      lit (r"Verify the command is supported in your diagram syntax version") ∧
    getSuggestion (some (lit (r"unknown thing happened"))) =
      lit (r"Verify the command is supported in your Mermaid version") := by
  refine ⟨by decide, by decide, by decide⟩

/-- C8 as amended: the classifier maps a raw message to a kind by the ordered
substring tests of the spec (first match wins), and every kind yields exactly
the table's verbatim suggestion — with `unknown_command` mapping to `Verify
the command is supported in your Mermaid version`. -/
theorem c8_classifier_amended (msg : Option Str) :
    classifyError msg = classifyErrorSpec msg ∧
    getSuggestion msg = suggestionFor (classifyError msg) ∧
    suggestionFor (lit (r"syntax")) = lit (r"Check for missing semicolons, brackets, or incorrect syntax") ∧
    suggestionFor (lit (r"no_type")) = lit (r"Add a diagram type at the beginning (e.g., graph TD, sequenceDiagram)") ∧
    suggestionFor (lit (r"unknown_command")) = lit (r"Verify the command is supported in your Mermaid version") ∧
    suggestionFor (lit (r"parse")) = lit (r"Check the structure and syntax of your diagram") ∧
    suggestionFor (lit (r"identifier")) = lit (r"Ensure all identifiers are valid and properly referenced") ∧
    suggestionFor (lit (r"relation")) = lit (r"Check arrow syntax and node connections") ∧
    suggestionFor (lit (r"general")) = lit (r"Review the diagram syntax and structure") := by
  refine ⟨rfl, rfl, by decide, by decide, by decide, by decide, by decide, by decide, by decide⟩

theorem detect_of_filter_nil (lines : List Str)
    (h : lines.filter meaningful = []) : detectDiagramType lines = none := by
  unfold detectDiagramType
  rw [h]

/-- C10: a non-empty input whose every line is blank or a `%%` comment is not
an `input_error`: both validators return the `no_type` diagnostic with line 1,
dialect `unknown` and element count 0. -/
theorem c10_blank_input_no_type (s : Str) (t : Nat) (hne : s ≠ [])
    (h : ∀ l ∈ splitLines s, meaningful l = false) :
    fvValidateSyntax (some s) t =
      ⟨false, some (lit (r"No valid diagram type detected")), some (lit (r"no_type")), some 1,
       some (lit (r"Add a diagram type at the beginning (e.g., graph TD, sequenceDiagram, classDiagram)")),
       t, lit (r"unknown"), 0⟩ ∧
    svValidateSyntax (some s) t =
      ⟨false, some (lit (r"No valid diagram type detected")), some (lit (r"no_type")), some 1,
       some (lit (r"Add a diagram type at the beginning (e.g., graph TD, sequenceDiagram, classDiagram)")),
       t, lit (r"unknown"), 0⟩ := by
  have hie : s.isEmpty = false := by
    cases s with
    | nil => exact absurd rfl hne
    | cons c cs => rfl
  have hf : (splitLines s).filter meaningful = [] := by
    rw [List.filter_eq_nil_iff]
    intro a ha
    simp [h a ha]
  have hd := detect_of_filter_nil (splitLines s) hf
  constructor
  · simp only [fvValidateSyntax, hie, Bool.false_eq_true, if_false, hd]
    rfl
  · simp only [svValidateSyntax, hie, Bool.false_eq_true, if_false, hd]
    rfl

theorem c10_blank_input_no_type_witness :
    fvValidateSyntax (some (joinNL [lit (r"   "), lit (r"%% note"), lit (r"")])) 5 =
      ⟨false, some (lit (r"No valid diagram type detected")), some (lit (r"no_type")), some 1,
       some (lit (r"Add a diagram type at the beginning (e.g., graph TD, sequenceDiagram, classDiagram)")),
       5, lit (r"unknown"), 0⟩ ∧
    svValidateSyntax (some (joinNL [lit (r"   "), lit (r"%% note"), lit (r"")])) 5 =
      ⟨false, some (lit (r"No valid diagram type detected")), some (lit (r"no_type")), some 1,
       some (lit (r"Add a diagram type at the beginning (e.g., graph TD, sequenceDiagram, classDiagram)")),
       5, lit (r"unknown"), 0⟩ :=
  c10_blank_input_no_type (joinNL [lit (r"   "), lit (r"%% note"), lit (r"")]) 5
    (by decide) (by decide)

/-! Validity invariant: every result constructed by the scanners and facades
has its validity flag true exactly when all four error fields are null. -/

def vInv (res : VResult) : Prop :=
  res.isValid = true ↔
    (res.error = none ∧ res.type = none ∧ res.line = none ∧ res.suggestion = none)

def dInv (res : Diagnostic) : Prop :=
  res.isValid = true ↔
    (res.error = none ∧ res.type = none ∧ res.line = none ∧ res.suggestion = none)

theorem fvScan_inv (d : Dialect) (ls : List Str) (i : Nat) (hT : Bool) :
    vInv (fvScan d ls i hT) := by
  induction ls generalizing i hT with
  | nil => cases hT <;> simp [fvScan, vOk, fvNoType, vInv]
  | cons l rest ih =>
    simp only [fvScan]
    split
    · exact ih (i + 1) hT
    · split
      · exact ih (i + 1) hT
      · split
        · exact ih (i + 1) true
        · split
          · exact ih (i + 1) hT
          · simp [fvSyntaxErr, vInv]

theorem svScan_inv (typeP : Str → Bool) (linePs : List (Str → Bool)) (mkErr : Str → Str)
    (sugg ntErr ntSugg : Str) (ls : List Str) (i : Nat) (hT : Bool) :
    vInv (svScan typeP linePs mkErr sugg ntErr ntSugg ls i hT) := by
  induction ls generalizing i hT with
  | nil => cases hT <;> simp [svScan, vOk, vInv]
  | cons l rest ih =>
    simp only [svScan]
    split
    · exact ih (i + 1) hT
    · split
      · exact ih (i + 1) true
      · split
        · exact ih (i + 1) hT
        · simp [vInv]

theorem svPieGo_inv (ls : List Str) (i : Nat) (hT hD : Bool) :
    vInv (svValidatePieGo ls i hT hD) := by
  induction ls generalizing i hT hD with
  | nil => cases hT <;> cases hD <;> simp [svValidatePieGo, vOk, vInv]
  | cons l rest ih =>
    simp only [svValidatePieGo]
    split
    · exact ih (i + 1) hT hD
    · split
      · exact ih (i + 1) true hD
      · split
        · exact ih (i + 1) hT true
        · simp [vInv]

theorem svValidateByType_inv (d : Dialect) (ls : List Str) : vInv (svValidateByType d ls) := by
  cases d
  case pie => exact svPieGo_inv ls 0 false false
  all_goals
    first
    | exact svScan_inv _ _ _ _ _ _ ls 0 false

/-- C3: for every input value, the diagnostic returned by `validateSyntax` has
`isValid = true` exactly when its error message, error kind, line number and
suggestion are all null — for the flexible validator and for the simple
validator. -/
theorem c3_validity_iff_null_fields (input : Option Str) (t : Nat) :
    dInv (fvValidateSyntax input t) ∧ dInv (svValidateSyntax input t) := by
  constructor
  · match input with
    | none => simp [fvValidateSyntax, inputErrorDiag, dInv]
    | some s =>
      simp only [fvValidateSyntax]
      split
      · simp [inputErrorDiag, dInv]
      · split
        · simp [noTypeDiag, dInv]
        · exact fvScan_inv _ _ 0 false
  · match input with
    | none => simp [svValidateSyntax, inputErrorDiag, dInv]
    | some s =>
      simp only [svValidateSyntax]
      split
      · simp [inputErrorDiag, dInv]
      · split
        · simp [noTypeDiag, dInv]
        · exact svValidateByType_inv _ _

/-- C5: the source detector equals the spec's description — skip blank and
comment lines (unknown when none remain), then return the first dialect of
the fixed order `detectOrder` whose type-declaration rule matches the
trimmed, lower-cased first remaining line, and unknown when none matches. -/
theorem c5_detector_spec_equiv (lines : List Str) :
    detectDiagramType lines = detectDiagramTypeSpec lines := by
  unfold detectDiagramType detectDiagramTypeSpec
  cases hf : lines.filter meaningful with
  | nil => rfl
  | cons l t =>
    simp only [detectOrder, List.find?, Option.map_id]
    cases h1 : typeTest Dialect.graph (lowerL (trimL l)) <;> simp only [h1]
    case true => rfl
    cases h2 : typeTest Dialect.sequence (lowerL (trimL l)) <;> simp only [h2]
    case true => rfl
    cases h3 : typeTest Dialect.classDiagram (lowerL (trimL l)) <;> simp only [h3]
    case true => rfl
    cases h4 : typeTest Dialect.stateDiagram (lowerL (trimL l)) <;> simp only [h4]
    case true => rfl
    cases h5 : typeTest Dialect.erDiagram (lowerL (trimL l)) <;> simp only [h5]
    case true => rfl
    cases h6 : typeTest Dialect.gantt (lowerL (trimL l)) <;> simp only [h6]
    case true => rfl
    cases h7 : typeTest Dialect.journey (lowerL (trimL l)) <;> simp only [h7]
    case true => rfl
    cases h8 : typeTest Dialect.pie (lowerL (trimL l)) <;> simp only [h8]
    case true => rfl
    cases h9 : typeTest Dialect.gitGraph (lowerL (trimL l)) <;> simp only [h9]
    case true => rfl
    cases h10 : typeTest Dialect.mindmap (lowerL (trimL l)) <;> simp only [h10]
    case true => rfl
    rfl

/-! Disjointness of the type-declaration rules. -/

theorem isPrefixOf_total (s : Str) : ∀ a b : Str,
    a.isPrefixOf s = true → b.isPrefixOf s = true →
    a.isPrefixOf b = true ∨ b.isPrefixOf a = true := by
  induction s with
  | nil =>
    intro a b ha hb
    cases a with
    | nil => exact Or.inl (by cases b <;> rfl)
    | cons x xs => simp [List.isPrefixOf] at ha
  | cons c cs ih =>
    intro a b ha hb
    cases a with
    | nil => exact Or.inl (by cases b <;> rfl)
    | cons x xs =>
      cases b with
      | nil => exact Or.inr (by rfl)
      | cons y ys =>
        simp only [List.isPrefixOf, Bool.and_eq_true, beq_iff_eq] at ha hb ⊢
        rcases ha with ⟨hxc, ha⟩
        rcases hb with ⟨hyc, hb⟩
        subst hxc
        subst hyc
        rcases ih xs ys ha hb with h | h
        · exact Or.inl ⟨rfl, h⟩
        · exact Or.inr ⟨rfl, h⟩

theorem pfxRest_pfx (kw : String) (rest : RE) (t : Str)
    (h : pfxRest kw rest t = true) : (kw.toList).isPrefixOf t = true := by
  simp only [pfxRest, Bool.and_eq_true] at h
  exact h.1

theorem typeTest_kw (d : Dialect) (s : Str) (h : typeTest d s = true) :
    ∃ k ∈ kwOf d, k.isPrefixOf (lowerL s) = true := by
  cases d <;> simp only [typeTest, Bool.or_eq_true] at h
  case graph =>
    rcases h with h | h
    · exact ⟨lit (r"graph"), by simp [kwOf, lit], pfxRest_pfx _ _ _ h⟩
    · exact ⟨lit (r"flowchart"), by simp [kwOf, lit], pfxRest_pfx _ _ _ h⟩
  case sequence => exact ⟨lit (r"sequencediagram"), by simp [kwOf, lit], pfxRest_pfx _ _ _ h⟩
  case classDiagram => exact ⟨lit (r"classdiagram"), by simp [kwOf, lit], pfxRest_pfx _ _ _ h⟩
  case stateDiagram => exact ⟨lit (r"statediagram"), by simp [kwOf, lit], pfxRest_pfx _ _ _ h⟩
  case erDiagram => exact ⟨lit (r"erdiagram"), by simp [kwOf, lit], pfxRest_pfx _ _ _ h⟩
  case gantt => exact ⟨lit (r"gantt"), by simp [kwOf, lit], pfxRest_pfx _ _ _ h⟩
  case journey => exact ⟨lit (r"journey"), by simp [kwOf, lit], pfxRest_pfx _ _ _ h⟩
  case pie => exact ⟨lit (r"pie"), by simp [kwOf, lit], pfxRest_pfx _ _ _ h⟩
  case gitGraph => exact ⟨lit (r"gitgraph"), by simp [kwOf, lit], pfxRest_pfx _ _ _ h⟩
  case mindmap => exact ⟨lit (r"mindmap"), by simp [kwOf, lit], pfxRest_pfx _ _ _ h⟩

theorem kwSep (d1 d2 : Dialect) (hne : d1 ≠ d2) :
    ∀ k1 ∈ kwOf d1, ∀ k2 ∈ kwOf d2, k1.isPrefixOf k2 = false := by
  cases d1 <;> cases d2 <;> first
    | exact absurd rfl hne
    | decide

/-- C7: the ten dialects' type-declaration rules are pairwise disjoint — a
single line matched by the rules of two dialects forces the two dialects to
be equal — so the detector's answer does not depend on the order the rules
are tested in.  (The rule patterns are textually identical in the two
validators, so `typeTest` covers both.) -/
theorem c7_type_rules_disjoint (line : Str) (d1 d2 : Dialect)
    (h1 : typeTest d1 line = true) (h2 : typeTest d2 line = true) : d1 = d2 := by
  by_contra hne
  obtain ⟨k1, hk1m, hk1⟩ := typeTest_kw d1 line h1
  obtain ⟨k2, hk2m, hk2⟩ := typeTest_kw d2 line h2
  rcases isPrefixOf_total (lowerL line) k1 k2 hk1 hk2 with hp | hp
  · rw [kwSep d1 d2 hne k1 hk1m k2 hk2m] at hp
    exact absurd hp (by simp)
  · rw [kwSep d2 d1 (Ne.symm hne) k2 hk2m k1 hk1m] at hp
    exact absurd hp (by simp)

theorem c7_type_rules_disjoint_witness :
    typeTest Dialect.pie (lit (r"pie title Pets")) = true ∧ Dialect.pie = Dialect.pie :=
  ⟨by decide, c7_type_rules_disjoint (lit (r"pie title Pets")) Dialect.pie Dialect.pie
    (by decide) (by decide)⟩

/-! The pie `no_data` path of the simple validator. -/

theorem svPieGo_no_data (ls : List Str) :
    ∀ (i : Nat) (hT : Bool),
    (∀ l ∈ ls, meaningful l = true →
      typeTest Dialect.pie (trimL l) = true ∧ reMatch svPieData (trimL l) = false) →
    (hT = true ∨ ∃ l ∈ ls, meaningful l = true) →
    svValidatePieGo ls i hT false =
      ⟨false, some (lit (r"No data found in pie chart")), some (lit (r"no_data")), some 2,
       some (lit (r#"Add data in format: "Label" : value"#))⟩ := by
  induction ls with
  | nil =>
    intro i hT hscan hseen
    rcases hseen with h | ⟨l, hl, _⟩
    · subst h; rfl
    · exact absurd hl (List.not_mem_nil l)
  | cons l rest ih =>
    intro i hT hscan hseen
    by_cases hm : meaningful l = true
    · obtain ⟨hty, hdata⟩ := hscan l (List.mem_cons_self l rest) hm
      rw [meaningful_parts] at hm
      simp only [svValidatePieGo, hm.1, hm.2, Bool.or_self, Bool.false_eq_true, if_false, hty,
        if_true]
      exact ih (i + 1) true (fun a ha => hscan a (List.mem_cons_of_mem l ha)) (Or.inl rfl)
    · have hm' := hm
      rw [Bool.not_eq_true, not_meaningful_parts] at hm'
      have hskip : ((trimL l).isEmpty || (lit (r"%%")).isPrefixOf (trimL l)) = true := by
        rcases hm' with h | h <;> simp [h]
      simp only [svValidatePieGo, hskip, if_true]
      refine ih (i + 1) hT (fun a ha => hscan a (List.mem_cons_of_mem l ha)) ?_
      rcases hseen with h | ⟨a, ha, hma⟩
      · exact Or.inl h
      · rcases List.mem_cons.mp ha with rfl | ha'
        · exact absurd hma hm
        · exact Or.inr ⟨a, ha', hma⟩

/-- C2: whenever the detected dialect is pie and the scan of the simple
validator completes with the type declaration seen but zero lines matching
the pie `data` rule, `SimpleMermaidValidator.validateSyntax` rejects with kind
`no_data` at line 2 — not `no_type`.  (The hypothesis says every meaningful
line matches the pie type rule and none matches the data rule: exactly the
scans that complete with `hasType` and without `hasData`.) -/
theorem c2_pie_no_data (s : Str) (t : Nat)
    (hdet : detectDiagramType (splitLines s) = some Dialect.pie)
    (hscan : ∀ l ∈ splitLines s, meaningful l = true →
      typeTest Dialect.pie (trimL l) = true ∧ reMatch svPieData (trimL l) = false) :
    (svValidateSyntax (some s) t).isValid = false ∧
    (svValidateSyntax (some s) t).type = some (lit (r"no_data")) ∧
    (svValidateSyntax (some s) t).line = some 2 ∧
    (svValidateSyntax (some s) t).error = some (lit (r"No data found in pie chart")) := by
  have hne : s ≠ [] := by
    intro h
    subst h
    have : detectDiagramType (splitLines ([] : Str)) = none := by decide
    rw [this] at hdet
    exact absurd hdet (by simp)
  have hie : s.isEmpty = false := by
    cases s with
    | nil => exact absurd rfl hne
    | cons c cs => rfl
  have hgo := svPieGo_no_data (splitLines s) 0 false hscan
    (Or.inr (detect_some_mem (splitLines s) Dialect.pie hdet))
  simp only [svValidateSyntax, hie, Bool.false_eq_true, if_false, hdet, svValidateByType,
    svValidatePie, hgo]
  exact ⟨trivial, trivial, trivial, trivial⟩

theorem c2_pie_no_data_witness :
    (svValidateSyntax (some (lit (r"pie title Pets"))) 4).isValid = false ∧
    (svValidateSyntax (some (lit (r"pie title Pets"))) 4).type = some (lit (r"no_data")) ∧
    (svValidateSyntax (some (lit (r"pie title Pets"))) 4).line = some 2 ∧
    (svValidateSyntax (some (lit (r"pie title Pets"))) 4).error =
      some (lit (r"No data found in pie chart")) :=
  c2_pie_no_data (lit (r"pie title Pets")) 4 (by decide) (by decide)

/-! Fail-fast behaviour of the flexible `validateByType`. -/

/-- Acceptance test of the flexible scan for one trimmed, non-blank,
non-comment line: the (possibly missing) type-declaration branch, the
`validLine` branch, or the graph structural markers. -/
def fvLineOK (d : Dialect) (line : Str) : Bool :=
  (match fvTypePat d with | some p => p line | none => false) ||
  (fvValidLine d line || (d == .graph && (fvSubgraphTest line || fvEndTest line)))

/-- A line on which the flexible scan stops: meaningful (non-blank,
non-comment) but accepted by none of the dialect's rules. -/
def offending (d : Dialect) (l : Str) : Bool :=
  meaningful l && !(fvLineOK d (trimL l))

theorem fvScan_offending (d : Dialect) (pre : List Str) (bad : Str) (rest : List Str)
    (hpre : ∀ l ∈ pre, offending d l = false) (hbad : offending d bad = true) :
    ∀ (i : Nat) (hT : Bool),
    fvScan d (pre ++ bad :: rest) i hT = fvSyntaxErr d (trimL bad) (i + pre.length + 1) := by
  induction pre with
  | nil =>
    intro i hT
    have hm : meaningful bad = true := by
      cases hmb : meaningful bad with
      | false => rw [offending, hmb] at hbad; simp at hbad
      | true => rfl
    have hok : fvLineOK d (trimL bad) = false := by
      cases hfk : fvLineOK d (trimL bad) with
      | false => rfl
      | true => rw [offending, hfk] at hbad; simp at hbad
    have hmp := (meaningful_parts bad).mp hm
    have htf : (match fvTypePat d with | some q => q (trimL bad) | none => false) = false := by
      cases hq : (match fvTypePat d with | some q => q (trimL bad) | none => false) with
      | false => rfl
      | true => rw [fvLineOK, hq] at hok; simp at hok
    have hvf : (fvValidLine d (trimL bad) ||
        (d == Dialect.graph && (fvSubgraphTest (trimL bad) || fvEndTest (trimL bad)))) = false := by
      cases hq : (fvValidLine d (trimL bad) ||
          (d == Dialect.graph && (fvSubgraphTest (trimL bad) || fvEndTest (trimL bad)))) with
      | false => rfl
      | true => rw [fvLineOK, hq] at hok; simp at hok
    simp only [List.nil_append, fvScan, hmp.1, hmp.2, Bool.false_eq_true, if_false, htf, hvf,
      List.length_nil, Nat.add_zero]
  | cons p pre ih =>
    intro i hT
    have hp := hpre p (List.mem_cons_self p pre)
    have ih' := ih (fun l hl => hpre l (List.mem_cons_of_mem p hl))
    have harith : i + 1 + pre.length + 1 = i + (pre.length + 1) + 1 := by omega
    by_cases hm : meaningful p = true
    · have hmp := (meaningful_parts p).mp hm
      have hok : fvLineOK d (trimL p) = true := by
        cases hfk : fvLineOK d (trimL p) with
        | false => exfalso; rw [offending, hm, hfk] at hp; simp at hp
        | true => rfl
      by_cases ht : (match fvTypePat d with | some q => q (trimL p) | none => false) = true
      · have hstep : fvScan d ((p :: pre) ++ bad :: rest) i hT =
            fvScan d (pre ++ bad :: rest) (i + 1) true := by
          simp only [List.cons_append, fvScan, hmp.1, hmp.2, Bool.false_eq_true, if_false, ht,
            if_true, List.append_eq]
        rw [hstep, ih' (i + 1) true, List.length_cons, harith]
      · have htf : (match fvTypePat d with | some q => q (trimL p) | none => false) = false := by
          revert ht
          cases (match fvTypePat d with | some q => q (trimL p) | none => false) <;> simp
        have hv : (fvValidLine d (trimL p) ||
            (d == Dialect.graph && (fvSubgraphTest (trimL p) || fvEndTest (trimL p)))) = true := by
          have hok' := hok
          rw [fvLineOK, htf] at hok'
          simpa using hok'
        have hstep : fvScan d ((p :: pre) ++ bad :: rest) i hT =
            fvScan d (pre ++ bad :: rest) (i + 1) hT := by
          simp only [List.cons_append, fvScan, hmp.1, hmp.2, Bool.false_eq_true, if_false, htf,
            hv, if_true, List.append_eq]
        rw [hstep, ih' (i + 1) hT, List.length_cons, harith]
    · have hmf : meaningful p = false := by
        revert hm
        cases meaningful p <;> simp
      rcases (not_meaningful_parts p).mp hmf with h | h
      · have hstep : fvScan d ((p :: pre) ++ bad :: rest) i hT =
            fvScan d (pre ++ bad :: rest) (i + 1) hT := by
          simp only [List.cons_append, fvScan, h, if_true, List.append_eq]
        rw [hstep, ih' (i + 1) hT, List.length_cons, harith]
      · have hne2 : (trimL p).isEmpty = false := pfx2_nonempty _ h
        have hstep : fvScan d ((p :: pre) ++ bad :: rest) i hT =
            fvScan d (pre ++ bad :: rest) (i + 1) hT := by
          simp only [List.cons_append, fvScan, hne2, Bool.false_eq_true, if_false, h, if_true,
            List.append_eq]
        rw [hstep, ih' (i + 1) hT, List.length_cons, harith]

/-- C6: if the input splits as `pre ++ bad :: rest` where no line of `pre` is
offending for the detected dialect and `bad` (the line with 1-based index
`pre.length + 1`) is offending, the flexible validator reports kind `syntax`
at exactly that index with the message quoting the trimmed line — and the
result does not depend on `rest`, i.e. the scan stops there. -/
theorem c6_fail_fast (s : Str) (t : Nat) (d : Dialect) (pre : List Str) (bad : Str)
    (rest : List Str)
    (hdet : detectDiagramType (splitLines s) = some d)
    (hsplit : splitLines s = pre ++ bad :: rest)
    (hpre : ∀ l ∈ pre, offending d l = false)
    (hbad : offending d bad = true) :
    (fvValidateSyntax (some s) t).line = some (pre.length + 1) ∧
    (fvValidateSyntax (some s) t).type = some (lit (r"syntax")) ∧
    (fvValidateSyntax (some s) t).error =
      some (lit (r"Invalid ") ++ dialectName d ++ lit (r" syntax: ") ++ [dq] ++ trimL bad ++ [dq]) := by
  have hne : s ≠ [] := by
    intro he
    subst he
    have hs : splitLines ([] : Str) = [([] : Str)] := rfl
    rw [hs] at hsplit
    cases pre with
    | nil =>
      simp only [List.nil_append] at hsplit
      have hb : bad = ([] : Str) := (List.cons_eq_cons.mp hsplit.symm).1
      subst hb
      have : offending d ([] : Str) = false := by
        simp [offending, meaningful, trimL]
      rw [this] at hbad
      exact absurd hbad (by simp)
    | cons q qre =>
      simp only [List.cons_append] at hsplit
      have := (List.cons_eq_cons.mp hsplit).2
      exact absurd this.symm (List.append_ne_nil_of_right_ne_nil qre (by simp))
  have hie : s.isEmpty = false := by
    cases s with
    | nil => exact absurd rfl hne
    | cons c cs => rfl
  have hgo := fvScan_offending d pre bad rest hpre hbad 0 false
  rw [← hsplit] at hgo
  simp only [fvValidateSyntax, hie, Bool.false_eq_true, if_false, hdet, hgo, Nat.zero_add,
    fvSyntaxErr]
  exact ⟨trivial, trivial, trivial⟩

theorem c6_fail_fast_witness :
    (fvValidateSyntax (some (joinNL [lit (r"pie"), lit (r"xyz"), lit (r"later")])) 3).line =
      some 2 ∧
    (fvValidateSyntax (some (joinNL [lit (r"pie"), lit (r"xyz"), lit (r"later")])) 3).type =
      some (lit (r"syntax")) :=
  ⟨(c6_fail_fast (joinNL [lit (r"pie"), lit (r"xyz"), lit (r"later")]) 3 Dialect.pie
      [lit (r"pie")] (lit (r"xyz")) [lit (r"later")]
      (by decide) (by decide) (by decide) (by decide)).1,
   (c6_fail_fast (joinNL [lit (r"pie"), lit (r"xyz"), lit (r"later")]) 3 Dialect.pie
      [lit (r"pie")] (lit (r"xyz")) [lit (r"later")]
      (by decide) (by decide) (by decide) (by decide)).2.1⟩

/-! Comment-line insertion. -/

/-- Relation: the second line list is the first with extra comment lines
(trimmed text starting with `%%`) inserted at arbitrary positions. -/
inductive CommentIns : List Str → List Str → Prop where
  | nil : CommentIns [] []
  | keep (a : Str) {l l' : List Str} : CommentIns l l' → CommentIns (a :: l) (a :: l')
  | ins (c : Str) {l l' : List Str} :
      (lit (r"%%")).isPrefixOf (trimL c) = true → CommentIns l l' → CommentIns l (c :: l')

theorem commentLine_not_meaningful (c : Str)
    (hc : (lit (r"%%")).isPrefixOf (trimL c) = true) : meaningful c = false := by
  simp [meaningful, hc]

theorem commentIns_filter {l l' : List Str} (h : CommentIns l l') :
    l'.filter meaningful = l.filter meaningful := by
  induction h with
  | nil => rfl
  | keep a _ ih => simp only [List.filter_cons, ih]
  | ins c hc _ ih =>
    simp only [List.filter_cons, commentLine_not_meaningful c hc, Bool.false_eq_true, if_false, ih]

theorem commentIns_detect {l l' : List Str} (h : CommentIns l l') :
    detectDiagramType l' = detectDiagramType l := by
  unfold detectDiagramType
  rw [commentIns_filter h]

theorem commentIns_count {l l' : List Str} (h : CommentIns l l') :
    countElements l' = countElements l := by
  unfold countElements
  rw [commentIns_filter h]

/-- The four fields of a scan result that do not carry the line number. -/
def stripV (res : VResult) : Bool × Option Str × Option Str × Option Str :=
  (res.isValid, res.error, res.type, res.suggestion)

theorem commentIns_fvScan (d : Dialect) {l l' : List Str} (h : CommentIns l l') :
    ∀ (i i' : Nat) (hT : Bool), stripV (fvScan d l' i' hT) = stripV (fvScan d l i hT) := by
  induction h with
  | nil => intro i i' hT; rfl
  | keep a hrel ih =>
    intro i i' hT
    simp only [fvScan]
    split
    · exact ih (i + 1) (i' + 1) hT
    · split
      · exact ih (i + 1) (i' + 1) hT
      · split
        · exact ih (i + 1) (i' + 1) true
        · split
          · exact ih (i + 1) (i' + 1) hT
          · rfl
  | ins c hc hrel ih =>
    intro i i' hT
    have hne2 : (trimL c).isEmpty = false := pfx2_nonempty _ hc
    simp only [fvScan, hne2, Bool.false_eq_true, if_false, hc, if_true]
    exact ih i (i' + 1) hT

/-- C9 counterexample: inserting a `%%` comment line between the two lines of
`pie\n???` changes the reported failure line from 2 to 3, so comment
interspersal is not transparent for the reported line number. -/
theorem c9_comment_line_counterexample :
    CommentIns (splitLines (joinNL [lit (r"pie"), lit (r"???")]))
               (splitLines (joinNL [lit (r"pie"), lit (r"%%c"), lit (r"???")])) ∧
    (fvValidateSyntax (some (joinNL [lit (r"pie"), lit (r"???")])) 0).line = some 2 ∧
    (fvValidateSyntax (some (joinNL [lit (r"pie"), lit (r"%%c"), lit (r"???")])) 0).line =
      some 3 := by
  refine ⟨?_, by decide, by decide⟩
  have h1 : splitLines (joinNL [lit (r"pie"), lit (r"???")]) =
      [lit (r"pie"), lit (r"???")] := by decide
  have h2 : splitLines (joinNL [lit (r"pie"), lit (r"%%c"), lit (r"???")]) =
      [lit (r"pie"), lit (r"%%c"), lit (r"???")] := by decide
  rw [h1, h2]
  exact .keep _ (.ins _ (by decide) (.keep _ .nil))

/-- C9 as amended: interspersing comment lines (trimmed text starting `%%`)
into a non-empty input leaves `isValid`, `diagramType`, the error message,
the error kind, the suggestion and `elementCount` of the flexible validator
unchanged; only the reported line number may shift (by the number of comments
inserted before the offending line), as the counterexample shows. -/
theorem c9_comment_transparency_amended (s s' : Str) (t t' : Nat)
    (hne : s ≠ []) (hne' : s' ≠ [])
    (h : CommentIns (splitLines s) (splitLines s')) :
    (fvValidateSyntax (some s') t').isValid = (fvValidateSyntax (some s) t).isValid ∧
    (fvValidateSyntax (some s') t').diagramType = (fvValidateSyntax (some s) t).diagramType ∧
    (fvValidateSyntax (some s') t').error = (fvValidateSyntax (some s) t).error ∧
    (fvValidateSyntax (some s') t').type = (fvValidateSyntax (some s) t).type ∧
    (fvValidateSyntax (some s') t').suggestion = (fvValidateSyntax (some s) t).suggestion ∧
    (fvValidateSyntax (some s') t').elementCount = (fvValidateSyntax (some s) t).elementCount := by
  have hie : s.isEmpty = false := by
    cases s with
    | nil => exact absurd rfl hne
    | cons c cs => rfl
  have hie' : s'.isEmpty = false := by
    cases s' with
    | nil => exact absurd rfl hne'
    | cons c cs => rfl
  have hdet := commentIns_detect h
  have hcnt := commentIns_count h
  simp only [fvValidateSyntax, hie, hie', Bool.false_eq_true, if_false, hdet]
  cases hd : detectDiagramType (splitLines s) with
  | none => simp [noTypeDiag]
  | some d =>
    have hstrip := commentIns_fvScan d h 0 0 false
    have h1 : (fvScan d (splitLines s') 0 false).isValid =
        (fvScan d (splitLines s) 0 false).isValid := congrArg Prod.fst hstrip
    have h2 : (fvScan d (splitLines s') 0 false).error =
        (fvScan d (splitLines s) 0 false).error := congrArg (fun p => p.2.1) hstrip
    have h3 : (fvScan d (splitLines s') 0 false).type =
        (fvScan d (splitLines s) 0 false).type := congrArg (fun p => p.2.2.1) hstrip
    have h4 : (fvScan d (splitLines s') 0 false).suggestion =
        (fvScan d (splitLines s) 0 false).suggestion := congrArg (fun p => p.2.2.2) hstrip
    simp [h1, h2, h3, h4, hcnt]

theorem c9_comment_transparency_amended_witness :
    (fvValidateSyntax (some (joinNL [lit (r"pie"), lit (r"%%c"), lit (r"???")])) 1).isValid =
      (fvValidateSyntax (some (joinNL [lit (r"pie"), lit (r"???")])) 0).isValid ∧
    (fvValidateSyntax (some (joinNL [lit (r"pie"), lit (r"%%c"), lit (r"???")])) 1).diagramType =
      (fvValidateSyntax (some (joinNL [lit (r"pie"), lit (r"???")])) 0).diagramType ∧
    (fvValidateSyntax (some (joinNL [lit (r"pie"), lit (r"%%c"), lit (r"???")])) 1).error =
      (fvValidateSyntax (some (joinNL [lit (r"pie"), lit (r"???")])) 0).error ∧
    (fvValidateSyntax (some (joinNL [lit (r"pie"), lit (r"%%c"), lit (r"???")])) 1).type =
      (fvValidateSyntax (some (joinNL [lit (r"pie"), lit (r"???")])) 0).type ∧
    (fvValidateSyntax (some (joinNL [lit (r"pie"), lit (r"%%c"), lit (r"???")])) 1).suggestion =
      (fvValidateSyntax (some (joinNL [lit (r"pie"), lit (r"???")])) 0).suggestion ∧
    (fvValidateSyntax (some (joinNL [lit (r"pie"), lit (r"%%c"), lit (r"???")])) 1).elementCount =
      (fvValidateSyntax (some (joinNL [lit (r"pie"), lit (r"???")])) 0).elementCount :=
  c9_comment_transparency_amended (joinNL [lit (r"pie"), lit (r"???")])
    (joinNL [lit (r"pie"), lit (r"%%c"), lit (r"???")]) 0 1 (by decide) (by decide)
    (by
      have h1 : splitLines (joinNL [lit (r"pie"), lit (r"???")]) =
          [lit (r"pie"), lit (r"???")] := by decide
      have h2 : splitLines (joinNL [lit (r"pie"), lit (r"%%c"), lit (r"???")]) =
          [lit (r"pie"), lit (r"%%c"), lit (r"???")] := by decide
      rw [h1, h2]
      exact .keep _ (.ins _ (by decide) (.keep _ .nil)))
